import Mathlib

/-!
# Verification of the opinion-scoring core of `arquiteto_parecerista_ans`

Shallow embedding of the rule-based opinion engine and its companion tools:

* `sugerir_parecer`  (`architecture_domain_ans/tools/sugerir_parecer.py`)
* `capturar_vencimento` (`architecture_domain_ans/tools/capturar_vencimento.py`)
* `registrar_parecer` (`architecture_domain_ans/tools/registrar_parecer.py`)
* `integrar_onetrust` (`architecture_domain_ans/tools/integrar_onetrust.py`)
* `carregar_ressalvas`
  (`agents/gft_ans_architecture_domain/architecture_domain_ans/tools/carregar_ressalvas.py`)

The Python scorer manipulates IEEE-754 binary64 ("double") values.  Every
double reachable in the scorer is an integer multiple of 2⁻⁵⁷ with absolute
value below 2, so doubles are embedded as integers scaled by 2⁵⁷ and each
arithmetic step is rounded to the nearest representable value, ties to even,
exactly as the hardware does.  The binade of a positive value `v` with
`2^e ≤ v < 2^(e+1)` has unit-in-the-last-place `2^(e-52)`, i.e. `2^(e+5)`
scaled units; for `v < 2^-5` the 2⁻⁵⁷ grid is itself representable, so no
rounding occurs.  This embedding reproduces Python float semantics bit for
bit on the scorer's reachable values (e.g. `0.5 + 0.3 == 0.8` but
`0.5 + 0.1 + 0.1 + 0.1 == 0.7999999999999999 < 0.8`).

Dictionaries of string keys become structures of `Option`al fields; Python
truthiness of a string field is "present and non-empty"; fallible code
returns `Except`.  The persistence backend behind `registrar_parecer` is a
state-passing parameter, and `uuid`/`datetime` values are injected as
arguments, keeping every definition executable and deterministic.
-/

namespace ParecerANS

set_option maxRecDepth 100000

/-! ## Exact binary64 arithmetic on the 2⁻⁵⁷ grid -/

/-- Scale factor: doubles are represented as integer multiples of `2⁻⁵⁷`. -/
def scale : ℕ := 2 ^ 57

/-- Round `n` to the nearest multiple of `step`, ties to the even multiple
(IEEE-754 round-to-nearest-even restricted to one binade). -/
def roundStepNat (step n : ℕ) : ℕ :=
  let q := n / step
  let r := n % step
  if 2 * r < step then step * q
  else if step < 2 * r then step * (q + 1)
  else if q % 2 = 0 then step * q else step * (q + 1)

/-- Round a nonnegative scaled value (`n < 2^58`, i.e. value below 2) to the
nearest binary64.  Values below `2^-5` (scaled `2^52`) sit on a grid at least
as fine as the 2⁻⁵⁷ representation grid and are exact. -/
def flNat (n : ℕ) : ℕ :=
  if n < 2 ^ 53 then n
  else if n < 2 ^ 54 then roundStepNat 2 n
  else if n < 2 ^ 55 then roundStepNat 4 n
  else if n < 2 ^ 56 then roundStepNat 8 n
  else if n < 2 ^ 57 then roundStepNat 16 n
  else roundStepNat 32 n

/-- Round a scaled value to the nearest binary64 (rounding is symmetric). -/
def fl (z : ℤ) : ℤ :=
  if 0 ≤ z then (flNat z.toNat : ℤ) else -(flNat (-z).toNat : ℤ)

/-- Correctly rounded binary64 addition on scaled values: exact sum, then
round to nearest, ties to even.  This is what each Python `score += c`
performs. -/
def addD (x y : ℤ) : ℤ := fl (x + y)

/-- The binary64 value of the Python literal `0.5`, scaled by `2⁵⁷` (exact). -/
def lit05 : ℤ := 72057594037927936

/-- The binary64 value nearest the Python literal `0.3`, scaled by `2⁵⁷`. -/
def lit03 : ℤ := 43234556422756760

/-- The binary64 value nearest the Python literal `0.15`, scaled by `2⁵⁷`. -/
def lit015 : ℤ := 21617278211378380

/-- The binary64 value nearest the Python literal `0.2`, scaled by `2⁵⁷`. -/
def lit02 : ℤ := 28823037615171176

/-- The binary64 value nearest the Python literal `0.1`, scaled by `2⁵⁷`. -/
def lit01 : ℤ := 14411518807585588

/-- The binary64 value nearest the Python literal `0.05`, scaled by `2⁵⁷`. -/
def lit005 : ℤ := 7205759403792794

/-- The binary64 value nearest the Python literal `0.8`, scaled by `2⁵⁷`. -/
def lit08 : ℤ := 115292150460684704

/-- The binary64 value nearest the decimal `1.4`, scaled by `2⁵⁷`
(the unclamped maximum the scorer can reach). -/
def lit14 : ℤ := 201761263306198208

/-- Round-half-to-even of `(n / 2⁵⁷) * 100`: the integer number of hundredths
closest to the scaled value `n`, as computed by Python `round(x, 2)` and by
`format(x, ".2f")` (both are correctly rounded in decimal, ties to even). -/
def rheHundredthsNat (n : ℕ) : ℕ :=
  let q := n * 100 / scale
  let r := n * 100 % scale
  if 2 * r < scale then q
  else if scale < 2 * r then q + 1
  else if q % 2 = 0 then q else q + 1

/-- Nearest multiple of `step` to `num / den`, ties to the even multiple. -/
def roundQNat (step num den : ℕ) : ℕ :=
  let q := num / (den * step)
  let r := num % (den * step)
  if 2 * r < den * step then step * q
  else if den * step < 2 * r then step * (q + 1)
  else if q % 2 = 0 then step * q else step * (q + 1)

/-- The binary64 nearest to `n / 100` hundredths (`n ≤ 200`), scaled by `2⁵⁷`.
For `1 ≤ n ≤ 3` the true double lies below `2⁻⁵` and off the 2⁻⁵⁷ grid; those
hundredths are rounded to the grid instead — the scorer never produces them
(its rounded scores are multiples of five hundredths). -/
def hundredthsToD (n : ℕ) : ℕ :=
  if n = 0 then 0
  else if 100 ≤ n then roundQNat 32 (n * scale) 100
  else if 50 ≤ n then roundQNat 16 (n * scale) 100
  else if 25 ≤ n then roundQNat 8 (n * scale) 100
  else if 13 ≤ n then roundQNat 4 (n * scale) 100
  else if 7 ≤ n then roundQNat 2 (n * scale) 100
  else roundQNat 1 (n * scale) 100

/-- Python `round(x, 2)` on a scaled binary64: correctly rounded to two
decimal places (ties to even), then back to the nearest binary64.  A negative
zero result is identified with zero. -/
def roundTo2 (z : ℤ) : ℤ :=
  if 0 ≤ z then (hundredthsToD (rheHundredthsNat z.toNat) : ℤ)
  else -(hundredthsToD (rheHundredthsNat (-z).toNat) : ℤ)

/-- Python `f"{x:.2f}"` of a scaled binary64 value in `(-10, 10)`:
sign, integer digit, point, two decimal digits. -/
def fmt2f (z : ℤ) : String :=
  let h := rheHundredthsNat z.natAbs
  (if z < 0 then "-" else "") ++
    toString (h / 100) ++ "." ++ toString (h % 100 / 10) ++ toString (h % 10)

/-! ## Request data (`dados_requisicao`) -/

/-- The `parecer_anterior` entry of the request dict: the code accepts either
a dict (with keys `tipo_parecer` and `ressalvas`) or a plain string holding
the `tipo_parecer` value directly.  A missing key defaults to `{}` (an empty
dict), which behaves identically to `vazio` everywhere in the function (both
are falsy and their fields are never read). -/
inductive ParecerAnterior where
  | vazio
  | texto (s : String)
  | registro (tipo_parecer : Option String) (ressalvas : List String)
deriving DecidableEq, Repr

/-- Python truthiness of `parecer_anterior` (`if parecer_anterior:`): an empty
string is falsy; a (non-empty) dict is truthy. -/
def ParecerAnterior.truthy : ParecerAnterior → Bool
  | .vazio => false
  | .texto s => s ≠ ""
  | .registro _ _ => true

/-- The `tipo_anterior` local of RULE 1: `parecer_anterior.get("tipo_parecer")`
for the dict form, the string itself for the string form. -/
def ParecerAnterior.tipoAnterior : ParecerAnterior → Option String
  | .vazio => none
  | .texto s => some s
  | .registro t _ => t

/-- `parecer_anterior.get("ressalvas", [])` of the dict form (empty for the
other forms, which carry no caveats). -/
def ParecerAnterior.ressalvasAnteriores : ParecerAnterior → List String
  | .registro _ rs => rs
  | _ => []

/-- The Request-Attribute Bundle read out of `dados_requisicao` by
`sugerir_parecer` via `.get`: absent keys default to `None`
(`[]`, `{}`, `False` for the last three). -/
structure DadosRequisicao where
  tipo_requisicao : Option String
  integracoes_disponiveis : List String
  fluxo_dados : Option String
  direcionador : Option String
  parecer_anterior : ParecerAnterior
  armazena_dados_bv : Bool
deriving DecidableEq, Repr

/-- Python truthiness of an optional string: present and non-empty. -/
def truthyStr : Option String → Bool
  | none => false
  | some s => s ≠ ""

/-- Python `str(...)` of an optional string (`str(None) = "None"`), as
interpolated by f-strings. -/
def pyStr : Option String → String
  | none => "None"
  | some s => s

/-! ## `sugerir_parecer`: the five scoring rules

Each Python rule mutates `score`, `criterios_aplicados`, `ressalvas` and
`insumos_utilizados` in place; the embedding threads the score through one
transformer per rule and gives each rule's list contributions separately
(within a rule the list pushes never depend on the score).  Sequential
`score += c` updates become nested applications of `addD`. -/

/-- RULE 1 (Renovação with previous opinion), effect on `score`. -/
def rule1Score (d : DadosRequisicao) (s : ℤ) : ℤ :=
  if d.tipo_requisicao = some "Renovação" then
    if d.parecer_anterior.truthy then
      if d.parecer_anterior.tipoAnterior = some "Parecer Favorável" then addD s lit03
      else if d.parecer_anterior.tipoAnterior = some "Parecer Favorável com Ressalvas" then
        addD s lit015
      else addD s (-lit02)
    else s
  else s

/-- RULE 1, contribution to `criterios_aplicados`. -/
def rule1Crit (d : DadosRequisicao) : List String :=
  if d.tipo_requisicao = some "Renovação" then
    if d.parecer_anterior.truthy then
      if d.parecer_anterior.tipoAnterior = some "Parecer Favorável" then
        ["Parecer anterior foi favorável"]
      else if d.parecer_anterior.tipoAnterior = some "Parecer Favorável com Ressalvas" then
        ["Parecer anterior foi favorável com ressalvas"]
      else ["Parecer anterior foi desfavorável"]
    else ["Renovação sem histórico de parecer anterior"]
  else []

/-- RULE 1, contribution to `ressalvas`: the prior entry's caveats are copied
forward only in the favourable-with-caveats branch and only for the dict form
(`isinstance(parecer_anterior, dict)`). -/
def rule1Ress (d : DadosRequisicao) : List String :=
  if d.tipo_requisicao = some "Renovação" then
    if d.parecer_anterior.truthy then
      if d.parecer_anterior.tipoAnterior = some "Parecer Favorável" then []
      else if d.parecer_anterior.tipoAnterior = some "Parecer Favorável com Ressalvas" then
        d.parecer_anterior.ressalvasAnteriores
      else []
    else []
  else []

/-- RULE 1, contribution to `insumos_utilizados`. -/
def rule1Ins (d : DadosRequisicao) : List String :=
  if d.tipo_requisicao = some "Renovação" then
    "Tipo de requisição: Renovação" ::
      (if d.parecer_anterior.truthy then
        ["Parecer anterior: " ++ pyStr d.parecer_anterior.tipoAnterior]
      else [])
  else []

/-- Python `str.upper()` restricted to ASCII letters (all protocol labels
are ASCII), written character-wise so it evaluates by kernel reduction. -/
def pyUpper (s : String) : String := String.mk (s.data.map Char.toUpper)

/-- Python `str.lower()` restricted to ASCII letters, character-wise. -/
def pyLower (s : String) : String := String.mk (s.data.map Char.toLower)

/-- The modern-technology labels of RULE 2. -/
def modernTechs : List String := ["REST", "WEBHOOK", "MENSAGERIA"]

/-- `any(tech.upper() in [i.upper() for i in integracoes] for tech in
modern_techs)` (ASCII case folding, as all protocol labels are ASCII). -/
def hasModernTech (integracoes : List String) : Bool :=
  modernTechs.any fun tech => (integracoes.map pyUpper).contains (pyUpper tech)

/-- RULE 2 (available integrations), effect on `score`: a size bonus followed
by a modern-technology bonus, each a separate `+=`. -/
def rule2Score (d : DadosRequisicao) (s : ℤ) : ℤ :=
  if d.integracoes_disponiveis ≠ [] then
    if 3 ≤ d.integracoes_disponiveis.length then
      if hasModernTech d.integracoes_disponiveis then addD (addD s lit02) lit01
      else addD s lit02
    else if 1 ≤ d.integracoes_disponiveis.length then
      if hasModernTech d.integracoes_disponiveis then addD (addD s lit01) lit01
      else addD s lit01
    else
      if hasModernTech d.integracoes_disponiveis then addD s lit01 else s
  else s

/-- RULE 2, contribution to `criterios_aplicados`. -/
def rule2Crit (d : DadosRequisicao) : List String :=
  if d.integracoes_disponiveis ≠ [] then
    (if 3 ≤ d.integracoes_disponiveis.length then ["Múltiplas integrações disponíveis (≥3)"]
     else if 1 ≤ d.integracoes_disponiveis.length then ["Integrações disponíveis"]
     else []) ++
      (if hasModernTech d.integracoes_disponiveis then ["Suporte a tecnologias modernas"] else [])
  else []

/-- RULE 2, contribution to `insumos_utilizados`. -/
def rule2Ins (d : DadosRequisicao) : List String :=
  if d.integracoes_disponiveis ≠ [] then
    ["Integrações disponíveis: " ++ String.intercalate ", " d.integracoes_disponiveis]
  else []

/-- RULE 3 (data-flow support), effect on `score`. -/
def rule3Score (d : DadosRequisicao) (s : ℤ) : ℤ :=
  if truthyStr d.fluxo_dados then
    if d.fluxo_dados = some "BIDIRECIONAL" then addD s lit015
    else if d.fluxo_dados = some "INBOUND" ∨ d.fluxo_dados = some "OUTBOUND" then addD s lit01
    else s
  else s

/-- RULE 3, contribution to `criterios_aplicados`. -/
def rule3Crit (d : DadosRequisicao) : List String :=
  if truthyStr d.fluxo_dados then
    if d.fluxo_dados = some "BIDIRECIONAL" then ["Suporta fluxo bidirecional"]
    else if d.fluxo_dados = some "INBOUND" ∨ d.fluxo_dados = some "OUTBOUND" then
      ["Suporta fluxo " ++ pyLower (pyStr d.fluxo_dados)]
    else []
  else []

/-- RULE 3, contribution to `insumos_utilizados`. -/
def rule3Ins (d : DadosRequisicao) : List String :=
  if truthyStr d.fluxo_dados then ["Fluxo de dados: " ++ pyStr d.fluxo_dados] else []

/-- The mandatory caveat appended by RULE 4 in the `Desinvestir` branch. -/
def desinvestirRessalva : String :=
  "Serviço está marcado como \x27Desinvestir\x27 no CMDB. " ++
    "Avaliar necessidade de contratação/renovação considerando descontinuação futura."

/-- RULE 4 (CMDB direcionador), effect on `score`. -/
def rule4Score (d : DadosRequisicao) (s : ℤ) : ℤ :=
  if truthyStr d.direcionador then
    if d.direcionador = some "Evoluir" then addD s lit015
    else if d.direcionador = some "Manter" then addD s lit005
    else if d.direcionador = some "Desinvestir" then addD s (-lit02)
    else s
  else s

/-- RULE 4, contribution to `criterios_aplicados`. -/
def rule4Crit (d : DadosRequisicao) : List String :=
  if truthyStr d.direcionador then
    if d.direcionador = some "Evoluir" then ["Serviço marcado para evolução no CMDB"]
    else if d.direcionador = some "Manter" then ["Serviço em manutenção no CMDB"]
    else if d.direcionador = some "Desinvestir" then
      ["Serviço marcado para desinvestimento no CMDB"]
    else []
  else []

/-- RULE 4, contribution to `ressalvas`. -/
def rule4Ress (d : DadosRequisicao) : List String :=
  if truthyStr d.direcionador then
    if d.direcionador = some "Evoluir" then []
    else if d.direcionador = some "Manter" then []
    else if d.direcionador = some "Desinvestir" then [desinvestirRessalva]
    else []
  else []

/-- RULE 4, contribution to `insumos_utilizados`. -/
def rule4Ins (d : DadosRequisicao) : List String :=
  if truthyStr d.direcionador then ["Direcionador CMDB: " ++ pyStr d.direcionador] else []

/-- The mandatory caveat appended by RULE 5 when the supplier stores BV data. -/
def bvRessalva : String :=
  "Fornecedor armazena dados do Banco BV em sua infraestrutura. " ++
    "Verificar conformidade com políticas de segurança e LGPD."

/-- RULE 5 (BV data storage), effect on `score`. -/
def rule5Score (d : DadosRequisicao) (s : ℤ) : ℤ :=
  if d.armazena_dados_bv then addD s (-lit01) else s

/-- RULE 5, contribution to `criterios_aplicados`. -/
def rule5Crit (d : DadosRequisicao) : List String :=
  if d.armazena_dados_bv then ["Armazena dados do BV (requer atenção adicional)"] else []

/-- RULE 5, contribution to `ressalvas`. -/
def rule5Ress (d : DadosRequisicao) : List String :=
  if d.armazena_dados_bv then [bvRessalva] else []

/-- RULE 5, contribution to `insumos_utilizados`. -/
def rule5Ins (d : DadosRequisicao) : List String :=
  if d.armazena_dados_bv then ["Armazena dados do BV: Sim"] else []

/-- The score after RULE 1 (the function starts from `score = 0.5`). -/
def scoreAfter1 (d : DadosRequisicao) : ℤ := rule1Score d lit05

/-- The score after RULE 2. -/
def scoreAfter2 (d : DadosRequisicao) : ℤ := rule2Score d (scoreAfter1 d)

/-- The score after RULE 3. -/
def scoreAfter3 (d : DadosRequisicao) : ℤ := rule3Score d (scoreAfter2 d)

/-- The score after RULE 4. -/
def scoreAfter4 (d : DadosRequisicao) : ℤ := rule4Score d (scoreAfter3 d)

/-- The score reaching the decision logic, after all five rules. -/
def scoreOf (d : DadosRequisicao) : ℤ := rule5Score d (scoreAfter4 d)

/-- The `ressalvas` list accumulated by the rules, in push order
(RULE 1, RULE 4, RULE 5 are the only rules that push). -/
def accRessalvas (d : DadosRequisicao) : List String :=
  rule1Ress d ++ rule4Ress d ++ rule5Ress d

/-- The `criterios_aplicados` list accumulated by the rules, in push order. -/
def accCriterios (d : DadosRequisicao) : List String :=
  rule1Crit d ++ rule2Crit d ++ rule3Crit d ++ rule4Crit d ++ rule5Crit d

/-- The `insumos_utilizados` list accumulated by the rules, in push order. -/
def accInsumos (d : DadosRequisicao) : List String :=
  rule1Ins d ++ rule2Ins d ++ rule3Ins d ++ rule4Ins d ++ rule5Ins d

/-! ## `sugerir_parecer`: decision logic -/

/-- Generic caveat appended in the with-caveats bucket when none accumulated. -/
def monitorarRessalva : String :=
  "Monitorar evolução do serviço conforme roadmap tecnológico"

/-- Generic caveat appended in the unfavourable bucket when none accumulated. -/
def analiseRessalva : String :=
  "Requisição requer análise adicional antes de aprovação"

/-- The dictionary returned by `sugerir_parecer`
(`score_confianca` is a scaled binary64). -/
structure ParecerResultado where
  parecer_sugerido : String
  justificativa : String
  ressalvas : List String
  criterios_aplicados : List String
  insumos_utilizados : List String
  score_confianca : ℤ
  tipo_requisicao : Option String
deriving DecidableEq, Repr

/-- The Python error raised by `tipo_requisicao.lower()` when
`tipo_requisicao` is `None`. -/
def noneLowerError : String :=
  "AttributeError: \x27NoneType\x27 object has no attribute \x27lower\x27"

/-- `sugerir_parecer` (tools/sugerir_parecer.py).  The favourable branch
builds its justification with `tipo_requisicao.lower()`, which raises
`AttributeError` when `tipo_requisicao` is `None`; that is the only way the
function can fail, hence the `Except`. -/
def sugerirParecer (d : DadosRequisicao) : Except String ParecerResultado :=
  if lit08 ≤ scoreOf d then
    match d.tipo_requisicao with
    | none => .error noneLowerError
    | some t =>
      .ok
        { parecer_sugerido := "Parecer Favorável"
          justificativa :=
            "Requisição atende todos os critérios estabelecidos. Score de conformidade: " ++
              fmt2f (scoreOf d) ++ ". Recomendado prosseguir com a " ++ pyLower t ++ "."
          ressalvas := accRessalvas d
          criterios_aplicados := accCriterios d
          insumos_utilizados := accInsumos d
          score_confianca := roundTo2 (scoreOf d)
          tipo_requisicao := d.tipo_requisicao }
  else if lit05 ≤ scoreOf d then
    .ok
      { parecer_sugerido := "Parecer Favorável com Ressalvas"
        justificativa :=
          "Requisição atende os critérios principais com observações. Score de conformidade: " ++
            fmt2f (scoreOf d) ++ ". Recomendado prosseguir com ressalvas documentadas."
        ressalvas := if accRessalvas d = [] then [monitorarRessalva] else accRessalvas d
        criterios_aplicados := accCriterios d
        insumos_utilizados := accInsumos d
        score_confianca := roundTo2 (scoreOf d)
        tipo_requisicao := d.tipo_requisicao }
  else
    .ok
      { parecer_sugerido := "Parecer Desfavorável"
        justificativa :=
          "Requisição não atende critérios mínimos estabelecidos. Score de conformidade: " ++
            fmt2f (scoreOf d) ++ ". Recomendado revisar adequação do fornecedor/serviço."
        ressalvas := if accRessalvas d = [] then [analiseRessalva] else accRessalvas d
        criterios_aplicados := accCriterios d
        insumos_utilizados := accInsumos d
        score_confianca := roundTo2 (scoreOf d)
        tipo_requisicao := d.tipo_requisicao }

/-! ## `capturar_vencimento` (tools/capturar_vencimento.py) -/

/-- The dictionary returned by `capturar_vencimento`. -/
structure VencimentoResultado where
  status : String
  data_vencimento : Option String
  dias_ate_vencimento : Option ℤ
  dentro_prazo_2anos : Bool
  alerta : Option String
  acao_requerida : Option String
deriving DecidableEq, Repr

/-- `capturar_vencimento(data_vencimento, dias_ate_vencimento)`:
`if not data_vencimento` (absent or empty string) blocks, otherwise the
two-year window `dias_ate_vencimento <= 730` decides OK versus alert. -/
def capturarVencimento (data_vencimento : Option String) (dias_ate_vencimento : ℤ) :
    VencimentoResultado :=
  if data_vencimento = none ∨ data_vencimento = some "" then
    { status := "BLOQUEIO"
      data_vencimento := none
      dias_ate_vencimento := none
      dentro_prazo_2anos := false
      alerta := some "Data de vencimento não disponível no OneTrust. Cadastro obrigatório."
      acao_requerida := some "Atualizar OneTrust com data de vencimento do contrato" }
  else if ¬ dias_ate_vencimento ≤ 730 then
    { status := "ALERTA"
      data_vencimento := data_vencimento
      dias_ate_vencimento := some dias_ate_vencimento
      dentro_prazo_2anos := false
      alerta := some ("Contrato vence em " ++ toString dias_ate_vencimento ++
        " dias (>2 anos). Revisar necessidade de parecer.")
      acao_requerida := some "Verificar se renovação antecipada é necessária" }
  else
    { status := "OK"
      data_vencimento := data_vencimento
      dias_ate_vencimento := some dias_ate_vencimento
      dentro_prazo_2anos := true
      alerta := none
      acao_requerida := none }

/-! ## Tax-ID normalization and the two CNPJ-keyed lookup tools -/

/-- `cnpj.replace(".", "").replace("/", "").replace("-", "")`: replacing a
single character by the empty string removes every occurrence of it, so the
normalization is a filter dropping exactly the characters `.`, `/`, `-`. -/
def normalizeCnpj (s : String) : String :=
  String.mk (s.data.filter fun c => c ≠ '.' ∧ c ≠ '/' ∧ c ≠ '-')

/-- The `OneTrustContexto` record held by the OneTrust repository.  The
contract-expiration timestamp and "now" are modelled as day numbers, so
`(data_vencimento_contrato - datetime.now()).days` is their difference. -/
structure OneTrustContexto where
  cnpj : String
  nome_fornecedor : String
  tipo_contrato : String
  data_vencimento_contrato : Option ℤ
  dados_contexto : List (String × String)
  data_ultimo_update : String
deriving DecidableEq, Repr

/-- The dictionary returned by `integrar_onetrust`. -/
structure OneTrustResultado where
  encontrado : Bool
  cnpj : String
  nome_fornecedor : Option String
  tipo_contrato : Option String
  data_vencimento_contrato : Option ℤ
  dias_ate_vencimento : Option ℤ
  dados_contexto : Option (List (String × String))
  data_ultimo_update : Option String
  mensagem : Option String
  acao_requerida : Option String
deriving DecidableEq, Repr

/-- `integrar_onetrust(cnpj)` over an injected repository (the mock backend
is an in-memory dictionary and never raises, cf. spec §5) and an injected
"now".  The CNPJ is normalized before the lookup. -/
def integrarOnetrust (repo : String → Option OneTrustContexto) (now : ℤ) (cnpj : String) :
    OneTrustResultado :=
  match repo (normalizeCnpj cnpj) with
  | none =>
    { encontrado := false
      cnpj := normalizeCnpj cnpj
      nome_fornecedor := none
      tipo_contrato := none
      data_vencimento_contrato := none
      dias_ate_vencimento := none
      dados_contexto := none
      data_ultimo_update := none
      mensagem := some "Fornecedor não encontrado no OneTrust"
      acao_requerida := some "Cadastrar fornecedor no OneTrust antes de prosseguir" }
  | some dados =>
    { encontrado := true
      cnpj := dados.cnpj
      nome_fornecedor := some dados.nome_fornecedor
      tipo_contrato := some dados.tipo_contrato
      data_vencimento_contrato := dados.data_vencimento_contrato
      dias_ate_vencimento := dados.data_vencimento_contrato.map fun venc => venc - now
      dados_contexto := some dados.dados_contexto
      data_ultimo_update := some dados.data_ultimo_update
      mensagem := none
      acao_requerida := none }

/-- A stored Opinion History Entry as read by `carregar_ressalvas`
(`tipo_parecer.value` of the enum is its string). -/
structure ParecerHistorico where
  parecer_id : String
  data_parecer : String
  tipo_parecer : String
  justificativa : String
  ressalvas : List String
deriving DecidableEq, Repr

/-- The prior-entry summary embedded in `carregar_ressalvas` results
(the `justificativa` key is present only in the with-caveats outcome). -/
structure ParecerResumo where
  parecer_id : String
  data_parecer : String
  tipo_parecer : String
  justificativa : Option String
deriving DecidableEq, Repr

/-- The dictionary returned by `carregar_ressalvas`. -/
structure RessalvasResultado where
  tem_ressalvas : Bool
  parecer_anterior_encontrado : Bool
  ressalvas : List String
  parecer_anterior : Option ParecerResumo
  mensagem : Option String
  acao_requerida : Option String
deriving DecidableEq, Repr

/-- `carregar_ressalvas(cnpj)` over an injected history repository.  The CNPJ
is normalized before the lookup; three outcomes: no prior entry, prior entry
without caveats, prior entry with caveats. -/
def carregarRessalvas (repo : String → Option ParecerHistorico) (cnpj : String) :
    RessalvasResultado :=
  match repo (normalizeCnpj cnpj) with
  | none =>
    { tem_ressalvas := false
      parecer_anterior_encontrado := false
      ressalvas := []
      parecer_anterior := none
      mensagem := some "Nenhum parecer anterior encontrado para este fornecedor"
      acao_requerida := none }
  | some pa =>
    if pa.ressalvas = [] then
      { tem_ressalvas := false
        parecer_anterior_encontrado := true
        ressalvas := []
        parecer_anterior := some
          { parecer_id := pa.parecer_id
            data_parecer := pa.data_parecer
            tipo_parecer := pa.tipo_parecer
            justificativa := none }
        mensagem := some "Parecer anterior não continha ressalvas"
        acao_requerida := none }
    else
      { tem_ressalvas := true
        parecer_anterior_encontrado := true
        ressalvas := pa.ressalvas
        parecer_anterior := some
          { parecer_id := pa.parecer_id
            data_parecer := pa.data_parecer
            tipo_parecer := pa.tipo_parecer
            justificativa := some pa.justificativa }
        mensagem := none
        acao_requerida := some "Incluir ressalvas anteriores no parecer atual se ainda aplicáveis" }

/-! ## `registrar_parecer` (tools/registrar_parecer.py) -/

/-- The input dict of `registrar_parecer`: the six validated fields plus the
optional fields the function reads.  String-valued keys are `Option String`
(absent = `none`); Python truthiness treats `some ""` like an absent value. -/
structure DadosCompletos where
  cnpj : Option String
  nome_fornecedor : Option String
  api_id : Option String
  tipo_requisicao : Option String
  parecer_sugerido : Option String
  justificativa : Option String
  sigla_servico : Option String
  direcionador : Option String
  ressalvas : List String
  email_solicitante : Option String
  diretoria_solicitante : Option String
  score_confianca : Option ℤ
  criterios_aplicados : List String
  insumos_utilizados : List String
deriving DecidableEq, Repr

/-- `required_fields` of `registrar_parecer`, in source order. -/
def camposObrigatorios : List String :=
  ["cnpj", "nome_fornecedor", "api_id", "tipo_requisicao", "parecer_sugerido", "justificativa"]

/-- `dados_completos.get(field)` for the validated field names. -/
def getCampo (d : DadosCompletos) : String → Option String
  | "cnpj" => d.cnpj
  | "nome_fornecedor" => d.nome_fornecedor
  | "api_id" => d.api_id
  | "tipo_requisicao" => d.tipo_requisicao
  | "parecer_sugerido" => d.parecer_sugerido
  | "justificativa" => d.justificativa
  | _ => none

/-- `[field for field in required_fields if not dados_completos.get(field)]`:
the fields whose value is falsy (absent or the empty string). -/
def camposFaltantes (d : DadosCompletos) : List String :=
  camposObrigatorios.filter fun campo => ¬ truthyStr (getCampo d campo)

/-- The record assembled as `parecer_data` and handed to the backend. -/
structure ParecerData where
  parecer_id : String
  cnpj : String
  nome_fornecedor : String
  api_id : String
  sigla_servico : Option String
  direcionador : Option String
  tipo_requisicao : String
  parecer_sugerido : String
  justificativa : String
  ressalvas : List String
  data_parecer : String
  analista : String
  email_solicitante : Option String
  diretoria_solicitante : Option String
  meta_score_confianca : Option ℤ
  meta_criterios_aplicados : List String
  meta_insumos_utilizados : List String
  meta_versao_agente : String
deriving DecidableEq, Repr

/-- The dict returned by the backend's `save` (mirrors the mock adapter's
shape: success flag, id, registration date, status, next status). -/
structure SaveResultado where
  sucesso : Bool
  parecer_id : String
  data_registro : String
  status : String
  proximo_status : Option String
deriving DecidableEq, Repr

/-- The dictionary returned by `registrar_parecer`: the fail-closed
validation error, a registration confirmation, or the backend-failure shape. -/
inductive RegistroResultado where
  | camposAusentes (mensagem : String) (campos_faltantes : List String)
  | registrado (parecer_id : String) (data_registro : String) (status : String)
      (proximo_status : Option String) (mensagem : String) (tipo_parecer : String)
      (sigla_servico : Option String) (direcionador : Option String) (total_ressalvas : ℕ)
  | falhaRegistro (mensagem : String) (detalhes : SaveResultado)
deriving DecidableEq, Repr

/-- `registrar_parecer(dados_completos)` over an injected persistence backend
(`save`, explicit state passing over a backend state of type `σ`; the mock
backend never raises, cf. spec §5) and injected `uuid`/`datetime` values
(`parecer_id` and `data_parecer`).  Validation happens before anything is
persisted: when any required field is falsy, the structured error is returned
and the backend state is untouched. -/
def registrarParecer {σ : Type} (save : ParecerData → σ → SaveResultado × σ)
    (parecer_id data_parecer : String) (d : DadosCompletos) (store : σ) :
    RegistroResultado × σ :=
  if camposFaltantes d ≠ [] then
    (.camposAusentes
      ("Campos obrigatórios ausentes: " ++ String.intercalate ", " (camposFaltantes d))
      (camposFaltantes d), store)
  else
    let parecer_data : ParecerData :=
      { parecer_id := parecer_id
        cnpj := pyStr d.cnpj
        nome_fornecedor := pyStr d.nome_fornecedor
        api_id := pyStr d.api_id
        sigla_servico := d.sigla_servico
        direcionador := d.direcionador
        tipo_requisicao := pyStr d.tipo_requisicao
        parecer_sugerido := pyStr d.parecer_sugerido
        justificativa := pyStr d.justificativa
        ressalvas := d.ressalvas
        data_parecer := data_parecer
        analista := "Agente IA - Parecerista ANS"
        email_solicitante := d.email_solicitante
        diretoria_solicitante := d.diretoria_solicitante
        meta_score_confianca := d.score_confianca
        meta_criterios_aplicados := d.criterios_aplicados
        meta_insumos_utilizados := d.insumos_utilizados
        meta_versao_agente := "1.0" }
    let saved := save parecer_data store
    if saved.1.sucesso then
      (.registrado saved.1.parecer_id saved.1.data_registro saved.1.status
        saved.1.proximo_status
        ("Parecer registrado com sucesso: " ++ saved.1.parecer_id)
        (pyStr d.parecer_sugerido) d.sigla_servico d.direcionador d.ressalvas.length,
       saved.2)
    else
      (.falhaRegistro "Falha ao registrar parecer no sistema" saved.1, saved.2)

/-! ## Specification predicates and enumerations used by the theorems -/

/-- Lift a predicate over the scorer's result to its `Except`: trivially true
on the error outcome (used for properties of the returned dictionary). -/
def onOk (e : Except String ParecerResultado) (P : ParecerResultado → Prop) : Prop :=
  match e with
  | .ok r => P r
  | .error _ => True

/-- Lift a predicate over the scorer's result to its `Except`, demanding that
a result was actually returned. -/
def okAnd (e : Except String ParecerResultado) (P : ParecerResultado → Prop) : Prop :=
  match e with
  | .ok r => P r
  | .error _ => False

/-- The classification contract of the decision logic, spelt against the
accumulated score and the accumulated caveats: `score ≥ 0.8` is favourable
(caveats passed through); `0.5 ≤ score < 0.8` is favourable-with-caveats and
`score < 0.5` unfavourable, each appending its generic caveat exactly when no
caveat was accumulated by the rules.  Both boundaries are inclusive upward. -/
def decisaoEsperada (d : DadosRequisicao) (r : ParecerResultado) : Prop :=
  (lit08 ≤ scoreOf d →
    r.parecer_sugerido = "Parecer Favorável" ∧ r.ressalvas = accRessalvas d) ∧
  (lit05 ≤ scoreOf d → scoreOf d < lit08 →
    r.parecer_sugerido = "Parecer Favorável com Ressalvas" ∧
      r.ressalvas = (if accRessalvas d = [] then [monitorarRessalva] else accRessalvas d)) ∧
  (scoreOf d < lit05 →
    r.parecer_sugerido = "Parecer Desfavorável" ∧
      r.ressalvas = (if accRessalvas d = [] then [analiseRessalva] else accRessalvas d))

/-- The four values RULE 1 can leave the initial score `0.5` at. -/
def scores1 : List ℤ :=
  [lit05, addD lit05 lit03, addD lit05 lit015, addD lit05 (-lit02)]

/-- All values the score can hold after RULE 2. -/
def scores2 : List ℤ :=
  scores1.flatMap fun s =>
    [s, addD s lit02, addD (addD s lit02) lit01, addD s lit01, addD (addD s lit01) lit01]

/-- All values the score can hold after RULE 3. -/
def scores3 : List ℤ :=
  scores2.flatMap fun s => [s, addD s lit015, addD s lit01]

/-- All values the score can hold after RULE 4. -/
def scores4 : List ℤ :=
  scores3.flatMap fun s => [s, addD s lit015, addD s lit005, addD s (-lit02)]

/-- All values the score can hold when it reaches the decision logic. -/
def scores5 : List ℤ :=
  scores4.flatMap fun s => [s, addD s (-lit01)]

/-- Score values after RULE 3 when RULE 1 did not fire (null request type). -/
def scores3SemRenovacao : List ℤ :=
  ([lit05].flatMap fun s =>
      [s, addD s lit02, addD (addD s lit02) lit01, addD s lit01, addD (addD s lit01) lit01]).flatMap
    fun s => [s, addD s lit015, addD s lit01]

/-- One unit, in scaled representation: the upper end of the `[0, 1]` range
the specification asserts for the reported confidence. -/
def umScaled : ℤ := 2 ^ 57

/-! ## Concrete inputs used by counterexamples and witnesses -/

/-- The specification's "concrete scenario" bundle (§8): renewal with a
favourable prior, three modern integrations, bidirectional flow, `Evoluir`,
not storing BV data. -/
def cenarioConcreto : DadosRequisicao :=
  { tipo_requisicao := some "Renovação"
    integracoes_disponiveis := ["REST", "WEBHOOK", "MENSAGERIA"]
    fluxo_dados := some "BIDIRECIONAL"
    direcionador := some "Evoluir"
    parecer_anterior := .texto "Parecer Favorável"
    armazena_dados_bv := false }

/-- A bundle with a null request type whose other fields drive the score to
`0.5 + 0.2 + 0.1 + 0.15 + 0.15 ≥ 0.8`. -/
def cenarioTipoNulo : DadosRequisicao :=
  { tipo_requisicao := none
    integracoes_disponiveis := ["REST", "WEBHOOK", "MENSAGERIA"]
    fluxo_dados := some "BIDIRECIONAL"
    direcionador := some "Evoluir"
    parecer_anterior := .vazio
    armazena_dados_bv := false }

/-- A renewal bundle whose prior entry is favourable-with-caveats and carries
two caveat strings (§8 "Caveat propagation"). -/
def cenarioRessalvasAnteriores : DadosRequisicao :=
  { tipo_requisicao := some "Renovação"
    integracoes_disponiveis := ["SOAP"]
    fluxo_dados := some "INBOUND"
    direcionador := some "Manter"
    parecer_anterior := .registro (some "Parecer Favorável com Ressalvas")
      ["Ressalva original um", "Ressalva original dois"]
    armazena_dados_bv := false }

/-- A bundle marked `Desinvestir` with otherwise favourable fields. -/
def cenarioDesinvestir : DadosRequisicao :=
  { tipo_requisicao := some "Nova Contratação"
    integracoes_disponiveis := ["REST", "SOAP", "FILA"]
    fluxo_dados := some "BIDIRECIONAL"
    direcionador := some "Desinvestir"
    parecer_anterior := .vazio
    armazena_dados_bv := true }

/-- A renewal bundle whose prior opinion is an unrecognized plain string. -/
def cenarioAnteriorDesconhecido : DadosRequisicao :=
  { tipo_requisicao := some "Renovação"
    integracoes_disponiveis := []
    fluxo_dados := none
    direcionador := none
    parecer_anterior := .texto "Parecer Neutro"
    armazena_dados_bv := false }

/-- A renewal bundle whose prior opinion is the plain string
`"Parecer Favorável com Ressalvas"` (not a dict entry). -/
def cenarioAnteriorTexto : DadosRequisicao :=
  { tipo_requisicao := some "Renovação"
    integracoes_disponiveis := ["REST"]
    fluxo_dados := some "OUTBOUND"
    direcionador := some "Desinvestir"
    parecer_anterior := .texto "Parecer Favorável com Ressalvas"
    armazena_dados_bv := false }

/-- A registration input whose `cnpj` is absent while `justificativa` is
present but empty. -/
def dadosJustificativaVazia : DadosCompletos :=
  { cnpj := none
    nome_fornecedor := some "Fornecedor X"
    api_id := some "API-001"
    tipo_requisicao := some "Renovação"
    parecer_sugerido := some "Parecer Favorável"
    justificativa := some ""
    sigla_servico := none
    direcionador := none
    ressalvas := []
    email_solicitante := none
    diretoria_solicitante := none
    score_confianca := none
    criterios_aplicados := []
    insumos_utilizados := [] }

/-- A registration input missing every required field. -/
def dadosVazios : DadosCompletos :=
  { cnpj := none
    nome_fornecedor := none
    api_id := none
    tipo_requisicao := none
    parecer_sugerido := none
    justificativa := none
    sigla_servico := none
    direcionador := none
    ressalvas := []
    email_solicitante := none
    diretoria_solicitante := none
    score_confianca := none
    criterios_aplicados := []
    insumos_utilizados := [] }

/-- A simple list-backed persistence backend used to instantiate the
polymorphic backend parameter in closed statements. -/
def listSave (p : ParecerData) (store : List ParecerData) :
    SaveResultado × List ParecerData :=
  ({ sucesso := true
     parecer_id := p.parecer_id
     data_registro := p.data_parecer
     status := "REGISTRADO"
     proximo_status := some "AGUARDANDO_REVISAO_ANALISTA" }, store ++ [p])

/-- `"12.345.678/0001-90"` with a stray trailing blank: the normalization of
the source keeps the blank, so the result is neither 14 characters long nor
all digits. -/
def cnpjComEspaco : String := "12.345.678/0001-90 "

/-- The standard visual formatting of a bare 14-digit CNPJ:
`dd.ddd.ddd/dddd-dd`. -/
def formatCnpj (ds : List Char) : String :=
  String.mk (ds.take 2 ++ '.' ::
    ((ds.drop 2).take 3 ++ '.' ::
      ((ds.drop 5).take 3 ++ '/' ::
        ((ds.drop 8).take 4 ++ '-' :: ds.drop 12))))

/-- The digits of the specification's example CNPJ. -/
def cnpjExemplo : List Char := "12345678000190".data

/-- A one-entry OneTrust repository keyed by the bare example CNPJ. -/
def repoExemplo : String → Option OneTrustContexto := fun s =>
  if s = "12345678000190" then
    some
      { cnpj := "12345678000190"
        nome_fornecedor := "Fornecedor X"
        tipo_contrato := "Renovação"
        data_vencimento_contrato := some 20500
        dados_contexto := []
        data_ultimo_update := "2025-01-01" }
  else none

/-! ## Certificates for the binary64 constants -/

/-- `lit05` is exactly one half. -/
theorem lit05_exact : 2 * lit05 = 2 ^ 57 := by decide

/-- `lit03` is the correctly rounded binary64 of 3/10: it lies in the binade
`[2⁻², 2⁻¹)` (scaled `[2^55, 2^56)`) whose representable step is 8 scaled
units, it is on that grid, and it is within half a step of the true value. -/
theorem lit03_correct :
    2 ^ 55 ≤ lit03 ∧ lit03 < 2 ^ 56 ∧ lit03 % 8 = 0 ∧
      (10 * lit03 - 3 * 2 ^ 57).natAbs < 40 := by decide

/-- `lit015` is the correctly rounded binary64 of 3/20 (binade `[2⁻³, 2⁻²)`,
step 4; within half a step of the true value). -/
theorem lit015_correct :
    2 ^ 54 ≤ lit015 ∧ lit015 < 2 ^ 55 ∧ lit015 % 4 = 0 ∧
      (20 * lit015 - 3 * 2 ^ 57).natAbs < 40 := by decide

/-- `lit02` is the correctly rounded binary64 of 1/5 (binade `[2⁻³, 2⁻²)`,
step 4; within half a step of the true value). -/
theorem lit02_correct :
    2 ^ 54 ≤ lit02 ∧ lit02 < 2 ^ 55 ∧ lit02 % 4 = 0 ∧
      (5 * lit02 - 2 ^ 57).natAbs < 10 := by decide

/-- `lit01` is the correctly rounded binary64 of 1/10 (binade `[2⁻⁴, 2⁻³)`,
step 2; within half a step of the true value). -/
theorem lit01_correct :
    2 ^ 53 ≤ lit01 ∧ lit01 < 2 ^ 54 ∧ lit01 % 2 = 0 ∧
      (10 * lit01 - 2 ^ 57).natAbs < 10 := by decide

/-- `lit005` is the correctly rounded binary64 of 1/20 (binade `[2⁻⁵, 2⁻⁴)`,
step 1, i.e. exactly the 2⁻⁵⁷ grid; within half a step of the true value). -/
theorem lit005_correct :
    2 ^ 52 ≤ lit005 ∧ lit005 < 2 ^ 53 ∧
      (20 * lit005 - 2 ^ 57).natAbs < 10 := by decide

/-- `lit08` is the correctly rounded binary64 of 4/5 (binade `[2⁻¹, 1)`,
step 16; within half a step of the true value). -/
theorem lit08_correct :
    2 ^ 56 ≤ lit08 ∧ lit08 < 2 ^ 57 ∧ lit08 % 16 = 0 ∧
      (5 * lit08 - 4 * 2 ^ 57).natAbs < 80 := by decide

/-- `lit14` is the correctly rounded binary64 of 7/5 (binade `[1, 2)`,
step 32; within half a step of the true value). -/
theorem lit14_correct :
    2 ^ 57 ≤ lit14 ∧ lit14 < 2 ^ 58 ∧ lit14 % 32 = 0 ∧
      (5 * lit14 - 7 * 2 ^ 57).natAbs < 160 := by decide

/-- Sanity: `0.5 + 0.3` rounds up to the double `0.8` exactly (Python:
`0.5 + 0.3 == 0.8` is `True`). -/
theorem addD_half_03 : addD lit05 lit03 = lit08 := by decide

/-- Sanity: `0.5 + 0.1 + 0.1 + 0.1` lands strictly below the double `0.8`
(Python: `0.5 + 0.1 + 0.1 + 0.1 == 0.7999999999999999`). -/
theorem addD_three_tenths : addD (addD (addD lit05 lit01) lit01) lit01 < lit08 := by decide

/-! ## Where the accumulated score can land -/

/-- RULE 1 leaves the score at one of four values. -/
theorem scoreAfter1_mem (d : DadosRequisicao) : scoreAfter1 d ∈ scores1 := by
  unfold scoreAfter1 rule1Score scores1
  repeat' split <;> try simp_all

/-- RULE 2 maps any score into five candidates. -/
theorem rule2Score_cases (d : DadosRequisicao) (s : ℤ) :
    rule2Score d s ∈
      [s, addD s lit02, addD (addD s lit02) lit01, addD s lit01, addD (addD s lit01) lit01] := by
  unfold rule2Score
  repeat' split <;> try simp_all

/-- RULE 3 maps any score into three candidates. -/
theorem rule3Score_cases (d : DadosRequisicao) (s : ℤ) :
    rule3Score d s ∈ [s, addD s lit015, addD s lit01] := by
  unfold rule3Score
  repeat' split <;> try simp_all
  all_goals tauto

/-- RULE 4 maps any score into four candidates. -/
theorem rule4Score_cases (d : DadosRequisicao) (s : ℤ) :
    rule4Score d s ∈ [s, addD s lit015, addD s lit005, addD s (-lit02)] := by
  unfold rule4Score
  repeat' split <;> try simp_all

/-- RULE 5 maps any score into two candidates. -/
theorem rule5Score_cases (d : DadosRequisicao) (s : ℤ) :
    rule5Score d s ∈ [s, addD s (-lit01)] := by
  unfold rule5Score
  repeat' split <;> try simp_all

/-- The score after RULE 2 lies in the 20-element enumeration. -/
theorem scoreAfter2_mem (d : DadosRequisicao) : scoreAfter2 d ∈ scores2 := by
  unfold scores2
  rw [List.mem_flatMap]
  exact ⟨scoreAfter1 d, scoreAfter1_mem d, rule2Score_cases d (scoreAfter1 d)⟩

/-- The score after RULE 3 lies in the 60-element enumeration. -/
theorem scoreAfter3_mem (d : DadosRequisicao) : scoreAfter3 d ∈ scores3 := by
  unfold scores3
  rw [List.mem_flatMap]
  exact ⟨scoreAfter2 d, scoreAfter2_mem d, rule3Score_cases d (scoreAfter2 d)⟩

/-- The score after RULE 4 lies in the 240-element enumeration. -/
theorem scoreAfter4_mem (d : DadosRequisicao) : scoreAfter4 d ∈ scores4 := by
  unfold scores4
  rw [List.mem_flatMap]
  exact ⟨scoreAfter3 d, scoreAfter3_mem d, rule4Score_cases d (scoreAfter3 d)⟩

/-- The score reaching the decision logic lies in the 480-element
enumeration of reachable values. -/
theorem scoreOf_mem (d : DadosRequisicao) : scoreOf d ∈ scores5 := by
  unfold scores5
  rw [List.mem_flatMap]
  exact ⟨scoreAfter4 d, scoreAfter4_mem d, rule5Score_cases d (scoreAfter4 d)⟩

/-- Over every reachable final score, `round(score, 2)` lies between 0 and
the binary64 `1.4` (checked over the whole enumeration). -/
theorem scores5_round_range : ∀ z ∈ scores5, 0 ≤ roundTo2 z ∧ roundTo2 z ≤ lit14 := by decide

/-! ## Structural facts about `sugerir_parecer`'s returned dictionary -/

/-- With a present request type the scorer always returns a result
(the `AttributeError` needs `tipo_requisicao` to be `None`). -/
theorem sugerirParecer_ok_of_some (d : DadosRequisicao) (t : String)
    (h : d.tipo_requisicao = some t) : ∃ r, sugerirParecer d = .ok r := by
  unfold sugerirParecer
  rw [h]
  repeat' split
  all_goals first | exact ⟨_, rfl⟩ | simp_all

/-- Every returned result carries the accumulated criteria list. -/
theorem sugerirParecer_criterios (d : DadosRequisicao) :
    onOk (sugerirParecer d) fun r => r.criterios_aplicados = accCriterios d := by
  rcases hE : sugerirParecer d with m | r
  · trivial
  · show r.criterios_aplicados = accCriterios d
    unfold sugerirParecer at hE
    repeat' split at hE
    all_goals first | (injection hE with h2; subst h2) | injection hE
    all_goals rfl

/-- Every returned result reports `round(score, 2)` as its confidence. -/
theorem sugerirParecer_score (d : DadosRequisicao) :
    onOk (sugerirParecer d) fun r => r.score_confianca = roundTo2 (scoreOf d) := by
  rcases hE : sugerirParecer d with m | r
  · trivial
  · show r.score_confianca = roundTo2 (scoreOf d)
    unfold sugerirParecer at hE
    repeat' split at hE
    all_goals first | (injection hE with h2; subst h2) | injection hE
    all_goals rfl

/-- Every caveat accumulated by the rules appears in the output caveats
(the decision logic only ever appends). -/
theorem sugerirParecer_ressalvas_sub (d : DadosRequisicao) :
    onOk (sugerirParecer d) fun r => ∀ x ∈ accRessalvas d, x ∈ r.ressalvas := by
  rcases hE : sugerirParecer d with m | r
  · trivial
  · show ∀ x ∈ accRessalvas d, x ∈ r.ressalvas
    intro x hx
    unfold sugerirParecer at hE
    repeat' split at hE
    all_goals first | (injection hE with h2; subst h2) | injection hE
    all_goals first | exact hx | simp_all

/-- Every output caveat is either a generic decision caveat or one the rules
accumulated. -/
theorem sugerirParecer_ressalvas_sup (d : DadosRequisicao) :
    onOk (sugerirParecer d) fun r =>
      ∀ x ∈ r.ressalvas, x ∈ monitorarRessalva :: analiseRessalva :: accRessalvas d := by
  rcases hE : sugerirParecer d with m | r
  · trivial
  · show ∀ x ∈ r.ressalvas, x ∈ monitorarRessalva :: analiseRessalva :: accRessalvas d
    intro x hx
    unfold sugerirParecer at hE
    repeat' split at hE
    all_goals first | (injection hE with h2; subst h2) | injection hE
    all_goals simp_all

/-- When the score stays below the favourable threshold the scorer cannot
reach the `tipo_requisicao.lower()` call and always returns a result. -/
theorem sugerirParecer_ok_of_score_lt (d : DadosRequisicao) (h : scoreOf d < lit08) :
    ∃ r, sugerirParecer d = .ok r := by
  unfold sugerirParecer
  rw [if_neg (by omega)]
  split
  · exact ⟨_, rfl⟩
  · exact ⟨_, rfl⟩

/-- With a null request type RULE 1 never fires, so after RULE 3 the score
lies in the no-renewal enumeration. -/
theorem scoreAfter3_mem_semTipo (d : DadosRequisicao) (h : d.tipo_requisicao = none) :
    scoreAfter3 d ∈ scores3SemRenovacao := by
  have h1 : scoreAfter1 d = lit05 := by
    unfold scoreAfter1 rule1Score
    rw [h]
    simp
  unfold scores3SemRenovacao
  rw [List.mem_flatMap]
  refine ⟨scoreAfter2 d, ?_, rule3Score_cases d (scoreAfter2 d)⟩
  rw [List.mem_flatMap]
  refine ⟨lit05, by simp, ?_⟩
  show scoreAfter2 d ∈ _
  unfold scoreAfter2
  rw [h1]
  exact rule2Score_cases d lit05

/-- After the `Desinvestir` penalty (and the optional BV penalty), a score
built without RULE 1 stays below the favourable threshold. -/
theorem scores3SemRenovacao_desinvestir_lt :
    ∀ z ∈ scores3SemRenovacao,
      addD z (-lit02) < lit08 ∧ addD (addD z (-lit02)) (-lit01) < lit08 := by decide

/-- RULE 4 subtracts `0.2` in the `Desinvestir` branch. -/
theorem rule4Score_desinvestir (d : DadosRequisicao)
    (h : d.direcionador = some "Desinvestir") (s : ℤ) :
    rule4Score d s = addD s (-lit02) := by
  unfold rule4Score
  rw [h]
  simp [truthyStr]

/-- RULE 4 pushes exactly the divestment caveat in the `Desinvestir` branch. -/
theorem rule4Ress_desinvestir (d : DadosRequisicao)
    (h : d.direcionador = some "Desinvestir") :
    rule4Ress d = [desinvestirRessalva] := by
  unfold rule4Ress
  rw [h]
  simp [truthyStr]

/-- The divestment caveat is among the accumulated caveats of any
`Desinvestir` bundle. -/
theorem desinvestir_mem_acc (d : DadosRequisicao)
    (h : d.direcionador = some "Desinvestir") :
    desinvestirRessalva ∈ accRessalvas d := by
  unfold accRessalvas
  rw [rule4Ress_desinvestir d h]
  simp

/-- A bundle with null request type and `Desinvestir` never reaches the
favourable branch, hence never crashes. -/
theorem scoreOf_lt_semTipo_desinvestir (d : DadosRequisicao)
    (ht : d.tipo_requisicao = none) (h : d.direcionador = some "Desinvestir") :
    scoreOf d < lit08 := by
  have hmem := scoreAfter3_mem_semTipo d ht
  have hlt := scores3SemRenovacao_desinvestir_lt _ hmem
  have h4 : scoreAfter4 d = addD (scoreAfter3 d) (-lit02) := by
    unfold scoreAfter4
    exact rule4Score_desinvestir d h _
  unfold scoreOf rule5Score
  rw [h4]
  split
  · exact hlt.2
  · exact hlt.1

/-- The normalization fixes every all-digit string (digits are none of the
three stripped characters). -/
theorem normalizeCnpj_digits (ds : List Char) (h : ∀ c ∈ ds, c.isDigit = true) :
    normalizeCnpj (String.mk ds) = String.mk ds := by
  unfold normalizeCnpj
  congr 1
  apply List.filter_eq_self.mpr
  intro c hc
  have hd := h c hc
  simp only [decide_eq_true_eq]
  refine ⟨?_, ?_, ?_⟩ <;> rintro rfl <;> exact absurd hd (by decide)

/-- Reassembling the five slices of the CNPJ formatting recovers the list. -/
theorem cnpj_take_drop (ds : List Char) :
    ds.take 2 ++ ((ds.drop 2).take 3 ++ ((ds.drop 5).take 3 ++
      ((ds.drop 8).take 4 ++ ds.drop 12))) = ds := by
  conv_rhs => rw [← List.take_append_drop 2 ds]
  congr 1
  conv_rhs => rw [← List.take_append_drop 3 (ds.drop 2)]
  congr 1
  have h5 : (ds.drop 2).drop 3 = ds.drop 5 := by rw [List.drop_drop]
  rw [h5]
  conv_rhs => rw [← List.take_append_drop 3 (ds.drop 5)]
  congr 1
  have h8 : (ds.drop 5).drop 3 = ds.drop 8 := by rw [List.drop_drop]
  rw [h8]
  conv_rhs => rw [← List.take_append_drop 4 (ds.drop 8)]
  congr 1
  rw [List.drop_drop]

/-- Normalizing the standard formatting of an all-digit CNPJ recovers the
bare digit string: the filter drops exactly the inserted `.`, `/`, `-`. -/
theorem normalizeCnpj_format (ds : List Char) (h : ∀ c ∈ ds, c.isDigit = true) :
    normalizeCnpj (formatCnpj ds) = String.mk ds := by
  unfold normalizeCnpj formatCnpj
  congr 1
  have hkeep : ∀ sub : List Char, sub ⊆ ds →
      sub.filter (fun c => decide (c ≠ '.' ∧ c ≠ '/' ∧ c ≠ '-')) = sub := by
    intro sub hsub
    apply List.filter_eq_self.mpr
    intro c hc
    have hd := h c (hsub hc)
    simp only [decide_eq_true_eq]
    refine ⟨?_, ?_, ?_⟩ <;> rintro rfl <;> exact absurd hd (by decide)
  rw [List.filter_append, List.filter_cons_of_neg (by decide),
    List.filter_append, List.filter_cons_of_neg (by decide),
    List.filter_append, List.filter_cons_of_neg (by decide),
    List.filter_append, List.filter_cons_of_neg (by decide)]
  rw [hkeep _ (List.take_subset 2 ds),
    hkeep _ (List.Subset.trans (List.take_subset 3 _) (List.drop_subset 2 ds)),
    hkeep _ (List.Subset.trans (List.take_subset 3 _) (List.drop_subset 5 ds)),
    hkeep _ (List.Subset.trans (List.take_subset 4 _) (List.drop_subset 8 ds)),
    hkeep _ (List.drop_subset 12 ds)]
  exact cnpj_take_drop ds

/-! ## The claims -/

/-- Claim C1, counterexample: on the specification's own concrete scenario
the reported confidence is the binary64 `1.4`, strictly greater than one —
the code never clamps, so the score is not reported in `[0, 1]`. -/
theorem score_confianca_excede_um :
    Except.map ParecerResultado.score_confianca (sugerirParecer cenarioConcreto) =
      .ok lit14 ∧ umScaled < lit14 := ⟨by rfl, by decide⟩

/-- Claim C1, amended: for every bundle on which `sugerir_parecer` returns a
result, the reported confidence `score_confianca` lies in `[0, 1.4]` (and can
genuinely exceed 1, reaching the binary64 `1.4`). -/
theorem score_confianca_intervalo (d : DadosRequisicao) :
    onOk (sugerirParecer d) fun r => 0 ≤ r.score_confianca ∧ r.score_confianca ≤ lit14 := by
  have hs := sugerirParecer_score d
  rcases hE : sugerirParecer d with m | r
  · trivial
  · show 0 ≤ r.score_confianca ∧ r.score_confianca ≤ lit14
    rw [hE] at hs
    have hs2 : r.score_confianca = roundTo2 (scoreOf d) := hs
    rw [hs2]
    exact scores5_round_range _ (scoreOf_mem d)

/-- Claim C2: on a bundle with a null request type whose other fields drive
the score to `0.5 + 0.2 + 0.1 + 0.15 + 0.15 = 1.1 ≥ 0.8`, `sugerir_parecer`
raises `AttributeError` from `tipo_requisicao.lower()` instead of returning —
the totality the specification asserts fails on this input. -/
theorem sugerir_parecer_aborta_com_tipo_nulo :
    sugerirParecer cenarioTipoNulo = .error noneLowerError := by rfl

/-- Claim C3: for every bundle on which `sugerir_parecer` returns a result,
the accumulated score is classified with inclusive upper buckets —
`score ≥ 0.8` favourable, `0.5 ≤ score < 0.8` favourable-with-caveats,
`score < 0.5` unfavourable — and the generic monitoring/additional-review
caveat is appended exactly when the rules accumulated no caveat. -/
theorem sugerir_parecer_classificacao (d : DadosRequisicao) :
    onOk (sugerirParecer d) (decisaoEsperada d) := by
  have hlt : lit05 < lit08 := by decide
  rcases hE : sugerirParecer d with m | r
  · trivial
  · show decisaoEsperada d r
    unfold sugerirParecer at hE
    unfold decisaoEsperada
    repeat' split at hE
    all_goals first | (injection hE with h2; subst h2) | injection hE
    all_goals refine ⟨fun h8 => ?_, fun h5 h8 => ?_, fun h5 => ?_⟩
    all_goals first
      | exact ⟨rfl, rfl⟩
      | (refine ⟨rfl, ?_⟩; simp_all)
      | (exfalso; omega)

/-- Claim C4: on a Renewal bundle whose prior opinion is a stored (dict)
entry of type "Parecer Favorável com Ressalvas" carrying caveat strings,
RULE 1 adds `0.15` to the initial `0.5`, and every prior caveat string
appears verbatim in the output caveat list. -/
theorem renovacao_ressalvas_propagadas (d : DadosRequisicao) (prs : List String)
    (h1 : d.tipo_requisicao = some "Renovação")
    (h2 : d.parecer_anterior = .registro (some "Parecer Favorável com Ressalvas") prs) :
    scoreAfter1 d = addD lit05 lit015 ∧
    okAnd (sugerirParecer d) fun r => ∀ x ∈ prs, x ∈ r.ressalvas := by
  have hsc : scoreAfter1 d = addD lit05 lit015 := by
    unfold scoreAfter1 rule1Score
    rw [h1, h2]
    simp [ParecerAnterior.truthy, ParecerAnterior.tipoAnterior]
  refine ⟨hsc, ?_⟩
  obtain ⟨r, hE⟩ := sugerirParecer_ok_of_some d _ h1
  rw [hE]
  show ∀ x ∈ prs, x ∈ r.ressalvas
  intro x hx
  have hsub := sugerirParecer_ressalvas_sub d
  rw [hE] at hsub
  apply hsub
  have h1r : rule1Ress d = prs := by
    unfold rule1Ress
    rw [h1, h2]
    simp [ParecerAnterior.truthy, ParecerAnterior.tipoAnterior,
      ParecerAnterior.ressalvasAnteriores]
  unfold accRessalvas
  rw [h1r]
  simp [hx]

/-- Witness for claim C4 at the specification's caveat-propagation scenario:
a Renewal bundle with a dict prior entry carrying two caveat strings. -/
theorem renovacao_ressalvas_propagadas_witness :
    (cenarioRessalvasAnteriores.tipo_requisicao = some "Renovação" ∧
      cenarioRessalvasAnteriores.parecer_anterior =
        .registro (some "Parecer Favorável com Ressalvas")
          ["Ressalva original um", "Ressalva original dois"]) ∧
    (scoreAfter1 cenarioRessalvasAnteriores = addD lit05 lit015 ∧
      okAnd (sugerirParecer cenarioRessalvasAnteriores) fun r =>
        ∀ x ∈ ["Ressalva original um", "Ressalva original dois"], x ∈ r.ressalvas) :=
  ⟨⟨rfl, rfl⟩, renovacao_ressalvas_propagadas _ _ rfl rfl⟩

/-- Claim C5: every bundle with `direcionador = "Desinvestir"`, whatever its
other fields, has RULE 4 subtract `0.2` from the score, always returns a
result, and its output caveat list contains the divestment caveat — a string
containing "Desinvestir" and recommending review of the contract in view of
the coming discontinuation. -/
theorem desinvestir_penalidade_e_ressalva (d : DadosRequisicao)
    (h : d.direcionador = some "Desinvestir") :
    scoreAfter4 d = addD (scoreAfter3 d) (-lit02) ∧
    List.IsInfix "Desinvestir".data desinvestirRessalva.data ∧
    okAnd (sugerirParecer d) fun r => desinvestirRessalva ∈ r.ressalvas := by
  refine ⟨rule4Score_desinvestir d h _, by decide, ?_⟩
  have hok : ∃ r, sugerirParecer d = .ok r := by
    rcases htipo : d.tipo_requisicao with _ | t
    · exact sugerirParecer_ok_of_score_lt d (scoreOf_lt_semTipo_desinvestir d htipo h)
    · exact sugerirParecer_ok_of_some d t htipo
  obtain ⟨r, hE⟩ := hok
  rw [hE]
  show desinvestirRessalva ∈ r.ressalvas
  have hsub := sugerirParecer_ressalvas_sub d
  rw [hE] at hsub
  exact hsub _ (desinvestir_mem_acc d h)

/-- Witness for claim C5 at a concrete `Desinvestir` bundle. -/
theorem desinvestir_penalidade_e_ressalva_witness :
    cenarioDesinvestir.direcionador = some "Desinvestir" ∧
    (scoreAfter4 cenarioDesinvestir = addD (scoreAfter3 cenarioDesinvestir) (-lit02) ∧
      List.IsInfix "Desinvestir".data desinvestirRessalva.data ∧
      okAnd (sugerirParecer cenarioDesinvestir) fun r => desinvestirRessalva ∈ r.ressalvas) :=
  ⟨rfl, desinvestir_penalidade_e_ressalva cenarioDesinvestir rfl⟩

/-- Claim C6, counterexample: on an input whose `cnpj` is absent while
`justificativa` is present but empty, the validation error lists both fields,
so the missing-fields list does not name exactly the absent fields. -/
theorem campos_faltantes_inclui_presente_vazio :
    (registrarParecer listSave "PAR-2025-AB12CD34" "2025-06-01T00:00:00"
        dadosJustificativaVazia []).1 =
      .camposAusentes "Campos obrigatórios ausentes: cnpj, justificativa"
        ["cnpj", "justificativa"] ∧
    dadosJustificativaVazia.justificativa ≠ none ∧
    dadosJustificativaVazia.cnpj = none :=
  ⟨by rfl, by decide, rfl⟩

/-- Claim C6, amended: whenever any of the six required fields is absent or
holds a falsy (empty) value, `registrar_parecer` returns a structured error
whose missing-fields list names exactly the required fields that are absent
or empty, and the persistence backend state is unchanged — for every backend,
identifier, and timestamp. -/
theorem registrar_parecer_valida_campos {σ : Type}
    (save : ParecerData → σ → SaveResultado × σ) (pid dataP : String)
    (d : DadosCompletos) (store : σ)
    (h : camposFaltantes d ≠ []) :
    (registrarParecer save pid dataP d store).1 =
      .camposAusentes
        ("Campos obrigatórios ausentes: " ++ String.intercalate ", " (camposFaltantes d))
        (camposFaltantes d) ∧
    (registrarParecer save pid dataP d store).2 = store ∧
    (∀ c : String, c ∈ camposFaltantes d ↔
      c ∈ camposObrigatorios ∧ (getCampo d c = none ∨ getCampo d c = some "")) := by
  refine ⟨?_, ?_, ?_⟩
  · unfold registrarParecer
    rw [if_pos h]
  · unfold registrarParecer
    rw [if_pos h]
  · intro c
    unfold camposFaltantes
    rw [List.mem_filter]
    constructor
    · rintro ⟨hc, hp⟩
      refine ⟨hc, ?_⟩
      cases hget : getCampo d c with
      | none => exact Or.inl rfl
      | some s =>
        right
        rw [hget] at hp
        simp [truthyStr] at hp
        rw [hp]
    · rintro ⟨hc, hor⟩
      refine ⟨hc, ?_⟩
      rcases hor with hn | he
      · simp [truthyStr, hn]
      · simp [truthyStr, he]

/-- Witness for claim C6 at the input missing every required field. -/
theorem registrar_parecer_valida_campos_witness :
    camposFaltantes dadosVazios ≠ [] ∧
    ((registrarParecer listSave "PAR-2025-XY98ZW76" "2025-06-02T00:00:00" dadosVazios []).1 =
        .camposAusentes
          ("Campos obrigatórios ausentes: " ++
            String.intercalate ", " (camposFaltantes dadosVazios))
          (camposFaltantes dadosVazios) ∧
      (registrarParecer listSave "PAR-2025-XY98ZW76" "2025-06-02T00:00:00" dadosVazios []).2 =
        [] ∧
      (∀ c : String, c ∈ camposFaltantes dadosVazios ↔
        c ∈ camposObrigatorios ∧
          (getCampo dadosVazios c = none ∨ getCampo dadosVazios c = some ""))) :=
  ⟨by decide, registrar_parecer_valida_campos _ _ _ _ _ (by decide)⟩

/-- Claim C7: `capturar_vencimento` returns status `BLOQUEIO` on a null
expiration date (with the update-the-record message); on a (non-empty) date
it returns `OK` with no alert message when the days to expiration are at most
730 (inclusive), and `ALERTA` when they exceed 730 (731 alerts). -/
theorem capturar_vencimento_classificacao :
    (∀ dias : ℤ,
      (capturarVencimento none dias).status = "BLOQUEIO" ∧
      (capturarVencimento none dias).alerta =
        some "Data de vencimento não disponível no OneTrust. Cadastro obrigatório.") ∧
    (∀ (dias : ℤ) (c : Char) (cs : List Char),
      (capturarVencimento (some (String.mk (c :: cs))) dias).status =
        (if dias ≤ 730 then "OK" else "ALERTA") ∧
      (capturarVencimento (some (String.mk (c :: cs))) dias).alerta =
        (if dias ≤ 730 then none
         else some ("Contrato vence em " ++ toString dias ++
           " dias (>2 anos). Revisar necessidade de parecer."))) := by
  constructor
  · intro dias
    exact ⟨rfl, rfl⟩
  · intro dias c cs
    unfold capturarVencimento
    rw [if_neg (by simp [String.ext_iff])]
    by_cases hd : dias ≤ 730
    · rw [if_neg (not_not_intro hd), if_pos hd, if_pos hd]
      exact ⟨rfl, rfl⟩
    · rw [if_pos hd, if_neg hd, if_neg hd]
      exact ⟨rfl, rfl⟩

/-- Claim C8, counterexample: the normalization only strips `.`, `/`, `-`;
on a CNPJ with a stray blank it yields 15 characters that are not all digits,
and the lookup then misses a record stored under the bare 14-digit key. -/
theorem normalizacao_nao_remove_todo_nao_digito :
    (normalizeCnpj cnpjComEspaco).length = 15 ∧
    (normalizeCnpj cnpjComEspaco).data.all Char.isDigit = false ∧
    (integrarOnetrust repoExemplo 0 cnpjComEspaco).encontrado = false ∧
    (integrarOnetrust repoExemplo 0 "12345678000190").encontrado = true :=
  ⟨by decide, by decide, by rfl, by rfl⟩

/-- Claim C8, amended: tax IDs are normalized before every lookup by removing
the formatting characters `.`, `/`, `-` (no general non-digit stripping and
no 14-digit enforcement); consequently, for every repository state, both
`integrar_onetrust` and `carregar_ressalvas` return identical results on a
standard-formatted CNPJ and on its bare digit form. -/
theorem lookup_invariante_formatacao
    (repoO : String → Option OneTrustContexto) (repoH : String → Option ParecerHistorico)
    (now : ℤ) (ds : List Char) (h : ∀ c ∈ ds, c.isDigit = true) :
    integrarOnetrust repoO now (formatCnpj ds) = integrarOnetrust repoO now (String.mk ds) ∧
    carregarRessalvas repoH (formatCnpj ds) = carregarRessalvas repoH (String.mk ds) := by
  have h1 := normalizeCnpj_format ds h
  have h2 := normalizeCnpj_digits ds h
  constructor
  · unfold integrarOnetrust
    rw [h1, h2]
  · unfold carregarRessalvas
    rw [h1, h2]

/-- Witness for claim C8 at the specification's example CNPJ
`12.345.678/0001-90`. -/
theorem lookup_invariante_formatacao_witness :
    (∀ c ∈ cnpjExemplo, c.isDigit = true) ∧
    formatCnpj cnpjExemplo = "12.345.678/0001-90" ∧
    (integrarOnetrust repoExemplo 0 (formatCnpj cnpjExemplo) =
        integrarOnetrust repoExemplo 0 (String.mk cnpjExemplo) ∧
      carregarRessalvas (fun _ => none) (formatCnpj cnpjExemplo) =
        carregarRessalvas (fun _ => none) (String.mk cnpjExemplo)) :=
  ⟨by decide, by decide,
    lookup_invariante_formatacao repoExemplo (fun _ => none) 0 cnpjExemplo (by decide)⟩

/-- Claim C9: on a Renewal bundle whose (non-empty) prior opinion type is
anything other than exactly "Parecer Favorável" or "Parecer Favorável com
Ressalvas" — arbitrary unrecognized strings included — RULE 1 falls into the
unfavourable branch: it subtracts `0.2` from the initial `0.5` and records
the prior-was-unfavourable criterion. -/
theorem parecer_anterior_nao_reconhecido (d : DadosRequisicao)
    (h1 : d.tipo_requisicao = some "Renovação")
    (h2 : d.parecer_anterior.truthy = true)
    (h3 : d.parecer_anterior.tipoAnterior ≠ some "Parecer Favorável")
    (h4 : d.parecer_anterior.tipoAnterior ≠ some "Parecer Favorável com Ressalvas") :
    scoreAfter1 d = addD lit05 (-lit02) ∧
    okAnd (sugerirParecer d) fun r =>
      "Parecer anterior foi desfavorável" ∈ r.criterios_aplicados := by
  have hsc : scoreAfter1 d = addD lit05 (-lit02) := by
    unfold scoreAfter1 rule1Score
    rw [h1, if_pos rfl, if_pos h2, if_neg h3, if_neg h4]
  refine ⟨hsc, ?_⟩
  obtain ⟨r, hE⟩ := sugerirParecer_ok_of_some d _ h1
  rw [hE]
  show "Parecer anterior foi desfavorável" ∈ r.criterios_aplicados
  have hcrit := sugerirParecer_criterios d
  rw [hE] at hcrit
  have hcrit2 : r.criterios_aplicados = accCriterios d := hcrit
  rw [hcrit2]
  have h1c : rule1Crit d = ["Parecer anterior foi desfavorável"] := by
    unfold rule1Crit
    rw [h1, if_pos rfl, if_pos h2, if_neg h3, if_neg h4]
  unfold accCriterios
  rw [h1c]
  simp

/-- Witness for claim C9 at a Renewal bundle whose prior opinion is the
unrecognized string "Parecer Neutro". -/
theorem parecer_anterior_nao_reconhecido_witness :
    (cenarioAnteriorDesconhecido.tipo_requisicao = some "Renovação" ∧
      cenarioAnteriorDesconhecido.parecer_anterior.truthy = true ∧
      cenarioAnteriorDesconhecido.parecer_anterior.tipoAnterior ≠ some "Parecer Favorável" ∧
      cenarioAnteriorDesconhecido.parecer_anterior.tipoAnterior ≠
        some "Parecer Favorável com Ressalvas") ∧
    (scoreAfter1 cenarioAnteriorDesconhecido = addD lit05 (-lit02) ∧
      okAnd (sugerirParecer cenarioAnteriorDesconhecido) fun r =>
        "Parecer anterior foi desfavorável" ∈ r.criterios_aplicados) :=
  ⟨⟨rfl, rfl, by decide, by decide⟩,
    parecer_anterior_nao_reconhecido _ rfl rfl (by decide) (by decide)⟩

/-- Claim C10: when the prior opinion of a Renewal bundle is the plain string
"Parecer Favorável com Ressalvas" (not a dict entry), RULE 1 still adds
`0.15` but contributes no caveat: the accumulated caveats reduce to those of
RULES 4 and 5, and every output caveat is a generic decision caveat or one of
those — no prior caveat is propagated (copy-forward is dict-only). -/
theorem parecer_anterior_texto_sem_propagacao (d : DadosRequisicao)
    (h1 : d.tipo_requisicao = some "Renovação")
    (h2 : d.parecer_anterior = .texto "Parecer Favorável com Ressalvas") :
    scoreAfter1 d = addD lit05 lit015 ∧
    rule1Ress d = [] ∧
    accRessalvas d = rule4Ress d ++ rule5Ress d ∧
    okAnd (sugerirParecer d) fun r =>
      ∀ x ∈ r.ressalvas,
        x ∈ monitorarRessalva :: analiseRessalva :: (rule4Ress d ++ rule5Ress d) := by
  have hsc : scoreAfter1 d = addD lit05 lit015 := by
    unfold scoreAfter1 rule1Score
    rw [h1, h2]
    simp [ParecerAnterior.truthy, ParecerAnterior.tipoAnterior]
  have h1r : rule1Ress d = [] := by
    unfold rule1Ress
    rw [h1, h2]
    simp [ParecerAnterior.truthy, ParecerAnterior.tipoAnterior,
      ParecerAnterior.ressalvasAnteriores]
  have hacc : accRessalvas d = rule4Ress d ++ rule5Ress d := by
    unfold accRessalvas
    rw [h1r]
    rfl
  refine ⟨hsc, h1r, hacc, ?_⟩
  obtain ⟨r, hE⟩ := sugerirParecer_ok_of_some d _ h1
  rw [hE]
  show ∀ x ∈ r.ressalvas,
      x ∈ monitorarRessalva :: analiseRessalva :: (rule4Ress d ++ rule5Ress d)
  have hsup := sugerirParecer_ressalvas_sup d
  rw [hE] at hsup
  rw [← hacc]
  exact hsup

/-- Witness for claim C10 at a Renewal bundle with a plain-string prior. -/
theorem parecer_anterior_texto_sem_propagacao_witness :
    (cenarioAnteriorTexto.tipo_requisicao = some "Renovação" ∧
      cenarioAnteriorTexto.parecer_anterior = .texto "Parecer Favorável com Ressalvas") ∧
    (scoreAfter1 cenarioAnteriorTexto = addD lit05 lit015 ∧
      rule1Ress cenarioAnteriorTexto = [] ∧
      accRessalvas cenarioAnteriorTexto =
        rule4Ress cenarioAnteriorTexto ++ rule5Ress cenarioAnteriorTexto ∧
      okAnd (sugerirParecer cenarioAnteriorTexto) fun r =>
        ∀ x ∈ r.ressalvas,
          x ∈ monitorarRessalva :: analiseRessalva ::
            (rule4Ress cenarioAnteriorTexto ++ rule5Ress cenarioAnteriorTexto)) :=
  ⟨⟨rfl, rfl⟩, parecer_anterior_texto_sem_propagacao _ rfl rfl⟩

end ParecerANS
